import Mathlib

/-!
Verification of the configuration-validation and template-rendering core of
`initialize_project.py` (the grater_expectations project scaffolder).

The Python dictionaries holding YAML configuration sections are embedded as
association lists of key/value pairs; YAML scalar values are embedded as either
a null or a string, which is all the validation logic inspects (Python
truthiness on these is: `None` and `""` are falsy, every other string truthy).
The validators return `Except ConfigError Unit`, mirroring the `raise`
statements of the source; the template renderers are pure string-building
functions mirroring the f-string templates of the source.
-/

/-- A YAML scalar value as inspected by the validator: either null or a
string. -/
inductive Value where
  | null : Value
  | str : String → Value
deriving DecidableEq, Repr

/-- Python truthiness of an embedded value: `None` and the empty string are
falsy, any other string is truthy. -/
def Value.isTruthy : Value → Bool
  | .null => false
  | .str s => !(s == "")

/-- A configuration mapping (a YAML section): an association list of keys and
values, in document order, as a Python `dict` iterates it. -/
abbrev Config := List (String × Value)

/-- `key in cfg.keys()` of the source. -/
def containsKey (cfg : Config) (key : String) : Bool :=
  cfg.any (fun kv => kv.1 == key)

/-- `cfg[key]` of the source, as a partial lookup (first matching entry). -/
def lookup (cfg : Config) (key : String) : Option Value :=
  (List.find? (fun kv => kv.1 == key) cfg).map (fun kv => kv.2)

/-- The errors raised by the validation phase of `initialize_project.py`:
the two `KeyError`s of `evaluate_config_keys` (missing keys, missing values),
the `ValueError` of `evaluate_global_config` (defaults left unset), and the
`KeyError` a `cfg[key]` lookup itself would raise on an absent key. -/
inductive ConfigError where
  | missingKeys : String → List String → ConfigError
  | missingValues : String → List String → ConfigError
  | unsetDefaults : List String → ConfigError
  | lookupFailure : String → ConfigError
deriving DecidableEq, Repr

/-- `evaluate_config_keys(cfg, list_keys, config_name)` from the source:
first collects the required keys absent from `cfg` and raises listing all of
them; only then collects, over **all** items of `cfg`, the keys whose value is
falsy and that are not `"site_bucket_prefix"`, and raises listing all of
them. -/
def evaluate_config_keys (cfg : Config) (list_keys : List String)
    (config_name : String) : Except ConfigError Unit :=
  let missing_keys := list_keys.filter (fun key => !(containsKey cfg key))
  if missing_keys.length > 0 then
    .error (.missingKeys config_name missing_keys)
  else
    let missing_values :=
      (cfg.filter (fun kv => !(kv.2.isTruthy) && kv.1 != "site_bucket_prefix")).map
        (fun kv => kv.1)
    if missing_values.length > 0 then
      .error (.missingValues config_name missing_values)
    else
      .ok ()

/-- The sentinel default marker of `evaluate_global_config`. -/
def DEFAULT : String := "MUST_BE_SET"

/-- The `for key in list_keys: if cfg[key] == DEFAULT: list_failed.append(key)`
loop of `evaluate_global_config`, with the `cfg[key]` lookup kept fallible: an
absent key raises a `KeyError`, modelled as `ConfigError.lookupFailure`. -/
def collectDefaults (cfg : Config) : List String → Except ConfigError (List String)
  | [] => .ok []
  | key :: rest =>
    match lookup cfg key with
    | none => .error (.lookupFailure key)
    | some v =>
      match collectDefaults cfg rest with
      | .error e => .error e
      | .ok list_failed =>
        .ok (if v = Value.str DEFAULT then key :: list_failed else list_failed)

/-- `evaluate_global_config(cfg, list_keys, config_name)` from the source:
runs `evaluate_config_keys`, then collects the required keys whose value still
equals the sentinel default and raises listing all of them. -/
def evaluate_global_config (cfg : Config) (list_keys : List String)
    (config_name : String) : Except ConfigError Unit :=
  match evaluate_config_keys cfg list_keys config_name with
  | .error e => .error e
  | .ok _ =>
    match collectDefaults cfg list_keys with
    | .error e => .error e
    | .ok list_failed =>
      if list_failed.length > 0 then
        .error (.unsetDefaults list_failed)
      else
        .ok ()

/-- The `global_keys` list of `main_program`. -/
def global_keys : List String := ["account_id", "region"]

/-- The `project_keys` list of `main_program`. -/
def project_keys : List String :=
  ["store_bucket", "store_bucket_prefix", "site_bucket", "site_bucket_prefix",
   "docker_image_name", "site_name", "expectations_suite_name", "checkpoint_name",
   "run_name_template", "data_bucket", "prefix_data"]

/-- The validation phase of `main_program` (step 2): check the global config,
then the selected project config. -/
def validate_configs (cfg_global cfg : Config) (project : String) :
    Except ConfigError Unit :=
  match evaluate_global_config cfg_global global_keys "global" with
  | .error e => .error e
  | .ok _ => evaluate_config_keys cfg project_keys project

/-- The required keys of the global config still holding the sentinel
default: the characterization of the `list_failed` value collected by the
sentinel loop of `evaluate_global_config`. -/
def unset_default_keys (cfg : Config) (list_keys : List String) : List String :=
  list_keys.filter (fun key => lookup cfg key = some (Value.str DEFAULT))

/-- The `ECR_endpoint` local variable of `generate_ecr_bash_script`:
`f"\x7bcfg_global['account_id']\x7d.dkr.ecr.\x7bcfg_global['region']\x7d.amazonaws.com"`. -/
def ECR_endpoint (account_id region : String) : String :=
  account_id ++ ".dkr.ecr." ++ region ++ ".amazonaws.com"

/-- The `document` f-string of `generate_ecr_bash_script`, parameterized by the
configuration values it interpolates (`cfg["docker_image_name"]`,
`cfg_global["account_id"]`, `cfg_global["region"]`).  The text is transcribed
verbatim from the source; literals are split at interpolation points. -/
def generate_ecr_bash_script_document (docker_image account_id region : String) :
    String :=
  "#!/bin/bash\n    \n# Ensure region is (temporarily) set to prevent errors\n"
  ++ "export AWS_DEFAULT_REGION=\"eu-west-1\""
  ++ "\n\n# Change permissions of files. Otherwise upstream lambda will give permission error\nchmod 644 $(find . -type f)\nchmod 755 $(find . -type d)\n\n# Temporarily copy requirements.txt for usage w/ Dockerfile\ncp ../requirements.txt ./requirements.txt\n\n# Build image\n"
  ++ "docker build -t " ++ docker_image ++ " ."
  ++ "\n\n# Remove requirements.txt\nrm -rf requirements.txt\n\n# Log into AWS and ECR\n"
  ++ "aws ecr get-login-password --region " ++ region
  ++ " | docker login --username AWS --password-stdin " ++ ECR_endpoint account_id region
  ++ "\n\n# Create test repo, gives warning but continues of it already exists\naws ecr create-repository --repository-name "
  ++ docker_image
  ++ " --image-scanning-configuration scanOnPush=true --image-tag-mutability MUTABLE || true\n\n# Tag image and push to ECR\ndocker tag "
  ++ docker_image ++ ":latest " ++ ECR_endpoint account_id region ++ "/" ++ docker_image
  ++ ":latest\ndocker push " ++ ECR_endpoint account_id region ++ "/" ++ docker_image
  ++ ":latest"

/-- The `document_buckets` f-string of `generate_terraform_var_files`,
parameterized by `cfg["store_bucket"]`, `cfg["site_bucket"]`,
`cfg["data_bucket"]`. -/
def document_buckets (store_bucket site_bucket data_bucket : String) : String :=
  "ge-bucket-name      = \"" ++ store_bucket ++ "\"\nge-site-bucket-name = \""
  ++ site_bucket ++ "\"\nge-data-bucket-name = \"" ++ data_bucket ++ "\"\n"

/-- The `image_uri` local variable of `generate_terraform_var_files`,
parameterized by `cfg_global["account_id"]`, `cfg_global["region"]`,
`cfg["docker_image_name"]`. -/
def image_uri (account_id region docker_image_name : String) : String :=
  "\"" ++ account_id ++ ".dkr.ecr." ++ region ++ ".amazonaws.com/"
  ++ docker_image_name ++ ":latest\""

/-- The `document_lambda` value of `generate_terraform_var_files`:
`document_buckets + f"image_uri = \x7bimage_uri\x7d"`. -/
def document_lambda (store_bucket site_bucket data_bucket account_id region
    docker_image_name : String) : String :=
  document_buckets store_bucket site_bucket data_bucket
  ++ ("image_uri = " ++ image_uri account_id region docker_image_name)

/-- The `document` f-string of `generate_terraform_provider_config`,
parameterized by `cfg_global["region"]` (its only interpolation). -/
def provider_tf_document (region : String) : String :=
  "# NOTE: It's best to run Terraform using state stored in a state bucket. For more\n# information, please refer to https://www.terraform.io/language/state/remote\nterraform \x7b\n  required_providers \x7b\n    aws = \x7b\n      source  = \"hashicorp/aws\"\n      version = \"~> 4.0.0\"\n    \x7d\n  \x7d\n\x7d\n\nprovider \"aws\" \x7b\n  region = \""
  ++ region ++ "\"\n\x7d\n"

/-- `s` contains `t` as a contiguous substring: `s` splits as `a ++ t ++ b`. -/
def ContainsSub (s t : String) : Prop := ∃ a b, s = a ++ (t ++ b)

/-- The concrete global config of the end-to-end scenario:
`\x7baccount_id: "123", region: "us-east-1"\x7d`. -/
def cfg_global_example : Config :=
  [("account_id", Value.str "123"), ("region", Value.str "us-east-1")]

/-- A project config in which every required key holds a non-empty value
except `site_bucket_prefix`, which is omitted entirely (the key is absent). -/
def cfg_project_sbp_omitted : Config :=
  [("store_bucket", Value.str "b1"), ("store_bucket_prefix", Value.str "p1"),
   ("site_bucket", Value.str "b2"), ("docker_image_name", Value.str "img"),
   ("site_name", Value.str "site"), ("expectations_suite_name", Value.str "suite"),
   ("checkpoint_name", Value.str "cp"), ("run_name_template", Value.str "run"),
   ("data_bucket", Value.str "b3"), ("prefix_data", Value.str "pd")]

/-- The same project config with `site_bucket_prefix` present but holding the
empty string. -/
def cfg_project_sbp_empty : Config :=
  [("store_bucket", Value.str "b1"), ("store_bucket_prefix", Value.str "p1"),
   ("site_bucket", Value.str "b2"), ("site_bucket_prefix", Value.str ""),
   ("docker_image_name", Value.str "img"), ("site_name", Value.str "site"),
   ("expectations_suite_name", Value.str "suite"), ("checkpoint_name", Value.str "cp"),
   ("run_name_template", Value.str "run"), ("data_bucket", Value.str "b3"),
   ("prefix_data", Value.str "pd")]

/-! ### Helper lemmas -/

/-- `containsKey` holds exactly when some entry of the config carries the key. -/
lemma containsKey_iff (cfg : Config) (k : String) :
    containsKey cfg k = true ↔ ∃ v, (k, v) ∈ cfg := by
  unfold containsKey
  rw [List.any_eq_true]
  constructor
  · rintro ⟨⟨k', v⟩, hm, he⟩
    simp only [beq_iff_eq] at he
    subst he
    exact ⟨v, hm⟩
  · rintro ⟨v, hv⟩
    exact ⟨(k, v), hv, by simp⟩

/-- A key contained in the config has a successful lookup. -/
lemma lookup_isSome_of_containsKey {cfg : Config} {k : String}
    (h : containsKey cfg k = true) : ∃ v, lookup cfg k = some v := by
  unfold containsKey at h
  rw [List.any_eq_true] at h
  obtain ⟨kv, hm, he⟩ := h
  have hs : (List.find? (fun kv => kv.1 == k) cfg).isSome :=
    List.find?_isSome.mpr ⟨kv, hm, he⟩
  obtain ⟨p, hp⟩ := Option.isSome_iff_exists.mp hs
  exact ⟨p.2, by unfold lookup; rw [hp]; rfl⟩

/-- When some required key is absent, `evaluate_config_keys` raises the
missing-keys error carrying the full filter of absent keys. -/
lemma evaluate_config_keys_missing {cfg : Config} {list_keys : List String}
    {config_name : String}
    (h : list_keys.filter (fun key => !(containsKey cfg key)) ≠ []) :
    evaluate_config_keys cfg list_keys config_name
      = .error (.missingKeys config_name
          (list_keys.filter (fun key => !(containsKey cfg key)))) := by
  unfold evaluate_config_keys
  rw [if_pos]
  exact List.length_pos.mpr h

/-- When every required key is present, `evaluate_config_keys` proceeds to the
missing-values stage, whose outcome depends only on the config items. -/
lemma evaluate_config_keys_all_present {cfg : Config} {list_keys : List String}
    {config_name : String}
    (h : ∀ k ∈ list_keys, containsKey cfg k = true) :
    evaluate_config_keys cfg list_keys config_name
      = (if ((cfg.filter
              (fun kv => !(kv.2.isTruthy) && kv.1 != "site_bucket_prefix")).map
                (fun kv => kv.1)).length > 0 then
          .error (.missingValues config_name
            ((cfg.filter
              (fun kv => !(kv.2.isTruthy) && kv.1 != "site_bucket_prefix")).map
                (fun kv => kv.1)))
        else .ok ()) := by
  unfold evaluate_config_keys
  have hnil : list_keys.filter (fun key => !(containsKey cfg key)) = [] :=
    List.filter_eq_nil_iff.mpr (fun a ha => by simp [h a ha])
  rw [hnil]
  simp

/-- Membership in the missing-values report: each reported key is a config key
carrying a falsy value and distinct from the exempt key. -/
lemma mem_missing_values (cfg : Config) (k : String) :
    k ∈ (cfg.filter
          (fun kv => !(kv.2.isTruthy) && kv.1 != "site_bucket_prefix")).map
            (fun kv => kv.1)
      ↔ ∃ v, (k, v) ∈ cfg ∧ v.isTruthy = false ∧ k ≠ "site_bucket_prefix" := by
  rw [List.mem_map]
  constructor
  · rintro ⟨⟨k', v⟩, hm, he⟩
    rw [List.mem_filter] at hm
    obtain ⟨hin, hcond⟩ := hm
    simp only at he
    subst he
    simp only [Bool.and_eq_true, Bool.not_eq_true', bne_iff_ne, ne_eq] at hcond
    exact ⟨v, hin, hcond.1, hcond.2⟩
  · rintro ⟨v, hin, hfalsy, hne⟩
    refine ⟨(k, v), List.mem_filter.mpr ⟨hin, ?_⟩, rfl⟩
    simp [hfalsy, hne]

/-- If `evaluate_config_keys` succeeded, every required key is present. -/
lemma all_present_of_evaluate_ok {cfg : Config} {list_keys : List String}
    {config_name : String}
    (h : evaluate_config_keys cfg list_keys config_name = .ok ()) :
    ∀ k ∈ list_keys, containsKey cfg k = true := by
  intro k hk
  by_contra hc
  have hfalse : containsKey cfg k = false := by
    cases hcase : containsKey cfg k with
    | false => rfl
    | true => exact absurd hcase hc
  have hmem : k ∈ list_keys.filter (fun key => !(containsKey cfg key)) :=
    List.mem_filter.mpr ⟨hk, by simp [hfalse]⟩
  have hne : list_keys.filter (fun key => !(containsKey cfg key)) ≠ [] := by
    intro hnil
    rw [hnil] at hmem
    exact List.not_mem_nil k hmem
  rw [evaluate_config_keys_missing hne] at h
  exact Except.noConfusion h

/-- When every required key is present, the sentinel loop completes without a
lookup failure and returns exactly the required keys still set to the
sentinel. -/
lemma collectDefaults_ok {cfg : Config} {list_keys : List String}
    (h : ∀ k ∈ list_keys, containsKey cfg k = true) :
    collectDefaults cfg list_keys = .ok (unset_default_keys cfg list_keys) := by
  induction list_keys with
  | nil => rfl
  | cons k ks ih =>
    obtain ⟨v, hv⟩ := lookup_isSome_of_containsKey (h k (by simp))
    have ihh := ih (fun k' hk' => h k' (by simp [hk']))
    unfold collectDefaults unset_default_keys
    rw [hv, ihh]
    unfold unset_default_keys
    rw [List.filter_cons]
    simp only [hv, Option.some.injEq]
    by_cases hvd : v = Value.str DEFAULT <;> simp [hvd]

/-- When some required key is absent, the filter of absent keys is non-empty. -/
lemma filter_absent_ne_nil {cfg : Config} {list_keys : List String}
    (h : ∃ k ∈ list_keys, containsKey cfg k = false) :
    list_keys.filter (fun key => !(containsKey cfg key)) ≠ [] := by
  obtain ⟨k0, hk0, hc0⟩ := h
  intro hnil
  have hmem : k0 ∈ list_keys.filter (fun key => !(containsKey cfg key)) :=
    List.mem_filter.mpr ⟨hk0, by simp [hc0]⟩
  rw [hnil] at hmem
  exact List.not_mem_nil k0 hmem

/-! ### Claim theorems -/

/-- Claim C1, counterexample: with the single required key `"a"` present and
truthy, a config carrying an extra key `"extra"` with an empty value makes the
missing-values check fail reporting `"extra"` — a key outside the required
list — so the report does not equal the set of required falsy keys minus the
exempt keys (which is empty here). -/
theorem missing_values_reports_non_required_key :
    evaluate_config_keys [("a", Value.str "x"), ("extra", Value.str "")] ["a"] "p"
      = .error (.missingValues "p" ["extra"])
    ∧ "extra" ∉ (["a"] : List String)
    ∧ (∀ k ∈ (["a"] : List String),
        containsKey [("a", Value.str "x"), ("extra", Value.str "")] k = true) :=
  ⟨rfl, by decide, by decide⟩

/-- Claim C1, amended: when all required keys are present, the missing-values
report of `evaluate_config_keys` is exactly the keys of **all** config entries
(required or not, in config order) holding a falsy value, minus the exempt key
`"site_bucket_prefix"`, which never appears in it; validation succeeds iff that
list is empty. -/
theorem missing_values_report_characterization (cfg : Config)
    (list_keys : List String) (config_name : String)
    (hpres : ∀ k ∈ list_keys, containsKey cfg k = true) :
    ∃ mv,
      ((mv = [] ∧ evaluate_config_keys cfg list_keys config_name = .ok ())
        ∨ (mv ≠ [] ∧ evaluate_config_keys cfg list_keys config_name
              = .error (.missingValues config_name mv)))
      ∧ "site_bucket_prefix" ∉ mv
      ∧ (∀ k, k ∈ mv ↔
          ∃ v, (k, v) ∈ cfg ∧ v.isTruthy = false ∧ k ≠ "site_bucket_prefix") := by
  refine ⟨(cfg.filter
      (fun kv => !(kv.2.isTruthy) && kv.1 != "site_bucket_prefix")).map
        (fun kv => kv.1), ?_, ?_, mem_missing_values cfg⟩
  · by_cases hnil : (cfg.filter
        (fun kv => !(kv.2.isTruthy) && kv.1 != "site_bucket_prefix")).map
          (fun kv => kv.1) = []
    · left
      refine ⟨hnil, ?_⟩
      rw [evaluate_config_keys_all_present hpres, hnil]
      simp
    · right
      refine ⟨hnil, ?_⟩
      rw [evaluate_config_keys_all_present hpres,
        if_pos (List.length_pos.mpr hnil)]
  · intro hmem
    obtain ⟨v, _, _, hne⟩ := (mem_missing_values cfg _).mp hmem
    exact hne rfl

/-- Witness for `missing_values_report_characterization` at a concrete config
whose exempt key is null and whose key `"a"` is empty-valued. -/
theorem missing_values_report_characterization_witness :
    (∀ k ∈ (["a"] : List String),
        containsKey [("a", Value.str ""), ("site_bucket_prefix", Value.null)] k
          = true)
    ∧ ∃ mv,
      ((mv = [] ∧ evaluate_config_keys
            [("a", Value.str ""), ("site_bucket_prefix", Value.null)] ["a"] "p"
            = .ok ())
        ∨ (mv ≠ [] ∧ evaluate_config_keys
              [("a", Value.str ""), ("site_bucket_prefix", Value.null)] ["a"] "p"
              = .error (.missingValues "p" mv)))
      ∧ "site_bucket_prefix" ∉ mv
      ∧ (∀ k, k ∈ mv ↔
          ∃ v, (k, v) ∈ ([("a", Value.str ""), ("site_bucket_prefix", Value.null)] : Config)
            ∧ v.isTruthy = false ∧ k ≠ "site_bucket_prefix") :=
  ⟨by decide, missing_values_report_characterization _ _ "p" (by decide)⟩

/-- Claim C2: whenever one or more required keys are absent,
`evaluate_config_keys` fails with a missing-keys error whose reported list
contains exactly the absent required keys — every one of them, never only the
first. -/
theorem validate_reports_all_missing_keys (cfg : Config)
    (list_keys : List String) (config_name : String)
    (h : ∃ k ∈ list_keys, containsKey cfg k = false) :
    ∃ missing_keys,
      evaluate_config_keys cfg list_keys config_name
        = .error (.missingKeys config_name missing_keys)
      ∧ ∀ k, (k ∈ missing_keys ↔ (k ∈ list_keys ∧ containsKey cfg k = false)) := by
  refine ⟨_, evaluate_config_keys_missing (filter_absent_ne_nil h), ?_⟩
  intro k
  rw [List.mem_filter]
  simp

/-- Witness for `validate_reports_all_missing_keys`: the global key list
against a config holding only `region`. -/
theorem validate_reports_all_missing_keys_witness :
    (∃ k ∈ global_keys,
        containsKey [("region", Value.str "eu-west-1")] k = false)
    ∧ ∃ missing_keys,
      evaluate_config_keys [("region", Value.str "eu-west-1")] global_keys "global"
        = .error (.missingKeys "global" missing_keys)
      ∧ ∀ k, (k ∈ missing_keys ↔
          (k ∈ global_keys ∧ containsKey [("region", Value.str "eu-west-1")] k = false)) :=
  ⟨by decide, validate_reports_all_missing_keys _ _ "global" (by decide)⟩

/-- Claim C3, counterexample: a config whose required key `"a"` is absent and
whose required key `"b"` is present with an empty value makes
`evaluate_config_keys` raise the missing-keys error naming only `["a"]`; the
empty-valued key `"b"` is not part of the single failure report, so the report
does not list the offending keys of both kinds. -/
theorem missing_keys_error_omits_empty_values :
    evaluate_config_keys [("b", Value.str "")] ["a", "b"] "p"
      = .error (.missingKeys "p" ["a"])
    ∧ containsKey [("b", Value.str "")] "a" = false
    ∧ ("b", Value.str "") ∈ ([("b", Value.str "")] : Config)
    ∧ Value.isTruthy (Value.str "") = false
    ∧ "b" ∉ (["a"] : List String) :=
  ⟨rfl, rfl, by decide, rfl, by decide⟩

/-- Claim C3, amended: when a config simultaneously has absent required keys
and present required keys with falsy values, `evaluate_config_keys` raises at
the missing-keys stage: the single failure report is the missing-keys error
listing every absent required key, and the missing-values check (which would
report the falsy-valued keys) is not reached. -/
theorem missing_keys_raised_before_missing_values (cfg : Config)
    (list_keys : List String) (config_name : String)
    (h1 : ∃ k ∈ list_keys, containsKey cfg k = false)
    (h2 : ∃ kv ∈ cfg, kv.1 ∈ list_keys ∧ kv.2.isTruthy = false
            ∧ kv.1 ≠ "site_bucket_prefix") :
    evaluate_config_keys cfg list_keys config_name
      = .error (.missingKeys config_name
          (list_keys.filter (fun key => !(containsKey cfg key))))
    ∧ ∀ k, (k ∈ list_keys.filter (fun key => !(containsKey cfg key))
          ↔ (k ∈ list_keys ∧ containsKey cfg k = false)) := by
  refine ⟨evaluate_config_keys_missing (filter_absent_ne_nil h1), ?_⟩
  intro k
  rw [List.mem_filter]
  simp

/-- Witness for `missing_keys_raised_before_missing_values` at the
counterexample config of claim C3. -/
theorem missing_keys_raised_before_missing_values_witness :
    (∃ k ∈ (["a", "b"] : List String),
        containsKey [("b", Value.str "")] k = false)
    ∧ (∃ kv ∈ ([("b", Value.str "")] : Config),
        kv.1 ∈ (["a", "b"] : List String) ∧ kv.2.isTruthy = false
          ∧ kv.1 ≠ "site_bucket_prefix")
    ∧ evaluate_config_keys [("b", Value.str "")] ["a", "b"] "p"
        = .error (.missingKeys "p"
            ((["a", "b"] : List String).filter
              (fun key => !(containsKey [("b", Value.str "")] key))))
    ∧ ∀ k, (k ∈ (["a", "b"] : List String).filter
              (fun key => !(containsKey [("b", Value.str "")] key))
          ↔ (k ∈ (["a", "b"] : List String)
              ∧ containsKey [("b", Value.str "")] k = false)) := by
  refine ⟨by decide, by decide, ?_⟩
  exact missing_keys_raised_before_missing_values _ _ "p" (by decide) (by decide)

/-- Claim C4: for a global config that passes `evaluate_config_keys`, the
sentinel check of `evaluate_global_config` succeeds when no required key holds
the sentinel default `"MUST_BE_SET"`, and otherwise fails with an
unset-defaults error whose reported list is exactly the required keys whose
value equals the sentinel. -/
theorem global_config_sentinel_check (cfg : Config) (list_keys : List String)
    (config_name : String)
    (h : evaluate_config_keys cfg list_keys config_name = .ok ()) :
    ((∀ k ∈ list_keys, lookup cfg k ≠ some (Value.str DEFAULT)) →
        evaluate_global_config cfg list_keys config_name = .ok ())
    ∧ ((∃ k ∈ list_keys, lookup cfg k = some (Value.str DEFAULT)) →
        evaluate_global_config cfg list_keys config_name
          = .error (.unsetDefaults (unset_default_keys cfg list_keys)))
    ∧ ∀ k, (k ∈ unset_default_keys cfg list_keys
          ↔ (k ∈ list_keys ∧ lookup cfg k = some (Value.str DEFAULT))) := by
  have hall := all_present_of_evaluate_ok h
  have hcd := collectDefaults_ok hall
  have hmem : ∀ k, k ∈ unset_default_keys cfg list_keys
      ↔ (k ∈ list_keys ∧ lookup cfg k = some (Value.str DEFAULT)) := by
    intro k
    unfold unset_default_keys
    rw [List.mem_filter]
    simp
  refine ⟨?_, ?_, hmem⟩
  · intro hnone
    have hnil : unset_default_keys cfg list_keys = [] := by
      unfold unset_default_keys
      apply List.filter_eq_nil_iff.mpr
      intro a ha
      simpa using hnone a ha
    simp only [evaluate_global_config, h, hcd, hnil]
    simp
  · intro hex
    have hne : unset_default_keys cfg list_keys ≠ [] := by
      obtain ⟨k0, hk0, hl0⟩ := hex
      intro hnil
      have hk0m : k0 ∈ unset_default_keys cfg list_keys := (hmem k0).mpr ⟨hk0, hl0⟩
      rw [hnil] at hk0m
      exact List.not_mem_nil k0 hk0m
    simp only [evaluate_global_config, h, hcd]
    rw [if_pos (List.length_pos.mpr hne)]

/-- Witness for `global_config_sentinel_check`: a global config whose
`account_id` still holds the sentinel default. -/
theorem global_config_sentinel_check_witness :
    evaluate_config_keys
        [("account_id", Value.str "MUST_BE_SET"), ("region", Value.str "eu-west-1")]
        global_keys "global" = .ok ()
    ∧ (((∀ k ∈ global_keys,
          lookup [("account_id", Value.str "MUST_BE_SET"), ("region", Value.str "eu-west-1")] k
            ≠ some (Value.str DEFAULT)) →
        evaluate_global_config
          [("account_id", Value.str "MUST_BE_SET"), ("region", Value.str "eu-west-1")]
          global_keys "global" = .ok ())
    ∧ ((∃ k ∈ global_keys,
          lookup [("account_id", Value.str "MUST_BE_SET"), ("region", Value.str "eu-west-1")] k
            = some (Value.str DEFAULT)) →
        evaluate_global_config
          [("account_id", Value.str "MUST_BE_SET"), ("region", Value.str "eu-west-1")]
          global_keys "global"
          = .error (.unsetDefaults
              (unset_default_keys
                [("account_id", Value.str "MUST_BE_SET"), ("region", Value.str "eu-west-1")]
                global_keys)))
    ∧ ∀ k, (k ∈ unset_default_keys
              [("account_id", Value.str "MUST_BE_SET"), ("region", Value.str "eu-west-1")]
              global_keys
          ↔ (k ∈ global_keys
              ∧ lookup [("account_id", Value.str "MUST_BE_SET"), ("region", Value.str "eu-west-1")] k
                  = some (Value.str DEFAULT)))) :=
  ⟨rfl, global_config_sentinel_check _ _ "global" rfl⟩

/-- Claim C10: once the key-presence stage of the validator has succeeded,
every required key is present, so in the sentinel loop of
`evaluate_global_config` each `cfg[key]` lookup succeeds and the loop's
lookup-failure branch is unreachable: the loop always completes with a
result. -/
theorem sentinel_loop_lookup_never_fails (cfg : Config) (list_keys : List String)
    (h : list_keys.filter (fun key => !(containsKey cfg key)) = []) :
    (∀ k ∈ list_keys, (lookup cfg k).isSome = true)
    ∧ (∃ list_failed, collectDefaults cfg list_keys = .ok list_failed)
    ∧ ∀ e, collectDefaults cfg list_keys ≠ .error e := by
  have hall : ∀ k ∈ list_keys, containsKey cfg k = true := by
    intro k hk
    have hk2 := List.filter_eq_nil_iff.mp h k hk
    simpa using hk2
  have hcd := collectDefaults_ok hall
  refine ⟨?_, ⟨_, hcd⟩, ?_⟩
  · intro k hk
    obtain ⟨v, hv⟩ := lookup_isSome_of_containsKey (hall k hk)
    rw [hv]
    rfl
  · intro e hcontra
    rw [hcd] at hcontra
    exact Except.noConfusion hcontra

/-- Witness for `sentinel_loop_lookup_never_fails` at the concrete global
config of the end-to-end scenario. -/
theorem sentinel_loop_lookup_never_fails_witness :
    global_keys.filter (fun key => !(containsKey cfg_global_example key)) = []
    ∧ ((∀ k ∈ global_keys, (lookup cfg_global_example k).isSome = true)
      ∧ (∃ list_failed, collectDefaults cfg_global_example global_keys = .ok list_failed)
      ∧ ∀ e, collectDefaults cfg_global_example global_keys ≠ .error e) :=
  ⟨rfl, sentinel_loop_lookup_never_fails cfg_global_example global_keys rfl⟩

/-- Claim C5, counterexample: with the global config
`\x7baccount_id: "123", region: "us-east-1"\x7d` and a project config whose
required keys all hold non-empty values but whose `site_bucket_prefix` key is
omitted entirely, the validation phase does **not** succeed: it raises the
missing-keys error naming `site_bucket_prefix`, because the exemption covers
only the empty-value check, not the key-presence check. -/
theorem validation_fails_when_sbp_omitted :
    validate_configs cfg_global_example cfg_project_sbp_omitted "myproject"
      = .error (.missingKeys "myproject" ["site_bucket_prefix"]) := rfl

/-- Claim C5, amended: with the same global config and the project config in
which `site_bucket_prefix` is present but empty (and every other required key
non-empty), the validation phase (global check then project check) succeeds. -/
theorem validation_succeeds_when_sbp_empty :
    validate_configs cfg_global_example cfg_project_sbp_empty "myproject"
      = .ok () := rfl

/-- The rendered build script contains the fixed export line setting
`AWS_DEFAULT_REGION` to `eu-west-1`, whatever the configured region is. -/
lemma ecr_doc_contains_export (docker_image account_id region : String) :
    ContainsSub (generate_ecr_bash_script_document docker_image account_id region)
      "export AWS_DEFAULT_REGION=\"eu-west-1\"" := by
  refine ⟨"#!/bin/bash\n    \n# Ensure region is (temporarily) set to prevent errors\n",
    "\n\n# Change permissions of files. Otherwise upstream lambda will give permission error\nchmod 644 $(find . -type f)\nchmod 755 $(find . -type d)\n\n# Temporarily copy requirements.txt for usage w/ Dockerfile\ncp ../requirements.txt ./requirements.txt\n\n# Build image\n"
    ++ "docker build -t " ++ docker_image ++ " ."
    ++ "\n\n# Remove requirements.txt\nrm -rf requirements.txt\n\n# Log into AWS and ECR\n"
    ++ "aws ecr get-login-password --region " ++ region
    ++ " | docker login --username AWS --password-stdin " ++ ECR_endpoint account_id region
    ++ "\n\n# Create test repo, gives warning but continues of it already exists\naws ecr create-repository --repository-name "
    ++ docker_image
    ++ " --image-scanning-configuration scanOnPush=true --image-tag-mutability MUTABLE || true\n\n# Tag image and push to ECR\ndocker tag "
    ++ docker_image ++ ":latest " ++ ECR_endpoint account_id region ++ "/" ++ docker_image
    ++ ":latest\ndocker push " ++ ECR_endpoint account_id region ++ "/" ++ docker_image
    ++ ":latest", ?_⟩
  simp only [generate_ecr_bash_script_document, String.append_assoc]

/-- The rendered build script contains the registry-login command, which uses
the configured region both as the `--region` flag and inside the registry
endpoint. -/
lemma ecr_doc_contains_login (docker_image account_id region : String) :
    ContainsSub (generate_ecr_bash_script_document docker_image account_id region)
      ("aws ecr get-login-password --region " ++ (region
        ++ (" | docker login --username AWS --password-stdin "
            ++ ECR_endpoint account_id region))) := by
  refine ⟨"#!/bin/bash\n    \n# Ensure region is (temporarily) set to prevent errors\n"
    ++ "export AWS_DEFAULT_REGION=\"eu-west-1\""
    ++ "\n\n# Change permissions of files. Otherwise upstream lambda will give permission error\nchmod 644 $(find . -type f)\nchmod 755 $(find . -type d)\n\n# Temporarily copy requirements.txt for usage w/ Dockerfile\ncp ../requirements.txt ./requirements.txt\n\n# Build image\n"
    ++ "docker build -t " ++ docker_image ++ " ."
    ++ "\n\n# Remove requirements.txt\nrm -rf requirements.txt\n\n# Log into AWS and ECR\n",
    "\n\n# Create test repo, gives warning but continues of it already exists\naws ecr create-repository --repository-name "
    ++ docker_image
    ++ " --image-scanning-configuration scanOnPush=true --image-tag-mutability MUTABLE || true\n\n# Tag image and push to ECR\ndocker tag "
    ++ docker_image ++ ":latest " ++ ECR_endpoint account_id region ++ "/" ++ docker_image
    ++ ":latest\ndocker push " ++ ECR_endpoint account_id region ++ "/" ++ docker_image
    ++ ":latest", ?_⟩
  simp only [generate_ecr_bash_script_document, String.append_assoc]

/-- The rendered build script contains the registry endpoint computed from the
global config. -/
lemma ecr_doc_contains_endpoint (docker_image account_id region : String) :
    ContainsSub (generate_ecr_bash_script_document docker_image account_id region)
      (ECR_endpoint account_id region) := by
  refine ⟨"#!/bin/bash\n    \n# Ensure region is (temporarily) set to prevent errors\n"
    ++ "export AWS_DEFAULT_REGION=\"eu-west-1\""
    ++ "\n\n# Change permissions of files. Otherwise upstream lambda will give permission error\nchmod 644 $(find . -type f)\nchmod 755 $(find . -type d)\n\n# Temporarily copy requirements.txt for usage w/ Dockerfile\ncp ../requirements.txt ./requirements.txt\n\n# Build image\n"
    ++ "docker build -t " ++ docker_image ++ " ."
    ++ "\n\n# Remove requirements.txt\nrm -rf requirements.txt\n\n# Log into AWS and ECR\n"
    ++ "aws ecr get-login-password --region " ++ region
    ++ " | docker login --username AWS --password-stdin ",
    "\n\n# Create test repo, gives warning but continues of it already exists\naws ecr create-repository --repository-name "
    ++ docker_image
    ++ " --image-scanning-configuration scanOnPush=true --image-tag-mutability MUTABLE || true\n\n# Tag image and push to ECR\ndocker tag "
    ++ docker_image ++ ":latest " ++ ECR_endpoint account_id region ++ "/" ++ docker_image
    ++ ":latest\ndocker push " ++ ECR_endpoint account_id region ++ "/" ++ docker_image
    ++ ":latest", ?_⟩
  simp only [generate_ecr_bash_script_document, String.append_assoc]

/-- The rendered build script contains the docker build command for the
configured image name. -/
lemma ecr_doc_contains_docker_build (docker_image account_id region : String) :
    ContainsSub (generate_ecr_bash_script_document docker_image account_id region)
      ("docker build -t " ++ (docker_image ++ " .")) := by
  refine ⟨"#!/bin/bash\n    \n# Ensure region is (temporarily) set to prevent errors\n"
    ++ "export AWS_DEFAULT_REGION=\"eu-west-1\""
    ++ "\n\n# Change permissions of files. Otherwise upstream lambda will give permission error\nchmod 644 $(find . -type f)\nchmod 755 $(find . -type d)\n\n# Temporarily copy requirements.txt for usage w/ Dockerfile\ncp ../requirements.txt ./requirements.txt\n\n# Build image\n",
    "\n\n# Remove requirements.txt\nrm -rf requirements.txt\n\n# Log into AWS and ECR\n"
    ++ "aws ecr get-login-password --region " ++ region
    ++ " | docker login --username AWS --password-stdin " ++ ECR_endpoint account_id region
    ++ "\n\n# Create test repo, gives warning but continues of it already exists\naws ecr create-repository --repository-name "
    ++ docker_image
    ++ " --image-scanning-configuration scanOnPush=true --image-tag-mutability MUTABLE || true\n\n# Tag image and push to ECR\ndocker tag "
    ++ docker_image ++ ":latest " ++ ECR_endpoint account_id region ++ "/" ++ docker_image
    ++ ":latest\ndocker push " ++ ECR_endpoint account_id region ++ "/" ++ docker_image
    ++ ":latest", ?_⟩
  simp only [generate_ecr_bash_script_document, String.append_assoc]

/-- Claim C6: for every configuration, the rendered build script sets the
environment variable `AWS_DEFAULT_REGION` to the fixed string `eu-west-1`
independently of the configured region, while the registry-login command in
the same output uses the configured region both as its `--region` flag and
inside the registry endpoint it logs into. -/
theorem ecr_script_login_region_divergence (docker_image account_id region : String) :
    ContainsSub (generate_ecr_bash_script_document docker_image account_id region)
      "export AWS_DEFAULT_REGION=\"eu-west-1\""
    ∧ ContainsSub (generate_ecr_bash_script_document docker_image account_id region)
      ("aws ecr get-login-password --region " ++ (region
        ++ (" | docker login --username AWS --password-stdin "
            ++ ECR_endpoint account_id region)))
    ∧ ECR_endpoint account_id region
        = account_id ++ (".dkr.ecr." ++ (region ++ ".amazonaws.com")) :=
  ⟨ecr_doc_contains_export docker_image account_id region,
   ecr_doc_contains_login docker_image account_id region,
   by simp only [ECR_endpoint, String.append_assoc]⟩

/-- Claim C7: at the concrete configuration
(`docker_image_name="myimg"`, `account_id="123456789012"`, `region="eu-west-1"`)
the rendered build script contains the substrings
`123456789012.dkr.ecr.eu-west-1.amazonaws.com` and `docker build -t myimg .`;
in general the output embeds the registry endpoint, which has the form
`account_id ++ ".dkr.ecr." ++ region ++ ".amazonaws.com"`. -/
theorem ecr_script_endpoint_and_build :
    ContainsSub (generate_ecr_bash_script_document "myimg" "123456789012" "eu-west-1")
      "123456789012.dkr.ecr.eu-west-1.amazonaws.com"
    ∧ ContainsSub (generate_ecr_bash_script_document "myimg" "123456789012" "eu-west-1")
      "docker build -t myimg ."
    ∧ ∀ docker_image account_id region : String,
        ContainsSub (generate_ecr_bash_script_document docker_image account_id region)
          (ECR_endpoint account_id region)
        ∧ ECR_endpoint account_id region
            = account_id ++ (".dkr.ecr." ++ (region ++ ".amazonaws.com")) := by
  refine ⟨?_, ?_, fun docker_image account_id region =>
    ⟨ecr_doc_contains_endpoint docker_image account_id region,
     by simp only [ECR_endpoint, String.append_assoc]⟩⟩
  · have he : ECR_endpoint "123456789012" "eu-west-1"
        = "123456789012.dkr.ecr.eu-west-1.amazonaws.com" := by decide
    rw [← he]
    exact ecr_doc_contains_endpoint "myimg" "123456789012" "eu-west-1"
  · have hb : "docker build -t " ++ ("myimg" ++ " .") = "docker build -t myimg ." := by
      decide
    rw [← hb]
    exact ecr_doc_contains_docker_build "myimg" "123456789012" "eu-west-1"

/-- Claim C8: at `store_bucket="b1"`, `site_bucket="b2"`, `data_bucket="b3"`
the buckets variable file is exactly the three assignment lines for the three
bucket variables, in that order; and for every configuration the lambda
variable file equals the buckets file plus exactly one additional `image_uri`
line built from `account_id`, `region` and `docker_image_name`. -/
theorem terraform_var_files_shape :
    document_buckets "b1" "b2" "b3"
      = "ge-bucket-name      = \"b1\"\nge-site-bucket-name = \"b2\"\nge-data-bucket-name = \"b3\"\n"
    ∧ (∀ store_bucket site_bucket data_bucket account_id region docker_image_name :
          String,
        document_lambda store_bucket site_bucket data_bucket account_id region
            docker_image_name
          = document_buckets store_bucket site_bucket data_bucket
            ++ ("image_uri = " ++ image_uri account_id region docker_image_name))
    ∧ ∀ account_id region docker_image_name : String,
        image_uri account_id region docker_image_name
          = "\"" ++ (account_id ++ (".dkr.ecr." ++ (region ++ (".amazonaws.com/"
              ++ (docker_image_name ++ ":latest\""))))) :=
  ⟨by decide, fun _ _ _ _ _ _ => rfl,
   fun _ _ _ => by simp only [image_uri, String.append_assoc]⟩

/-- Claim C9: the build-script renderer, both variable-file renderer variants,
and the provider renderer are deterministic: invoked twice on the same
configuration values they produce byte-identical output text (their embeddings
are pure functions of the configuration, with no source of randomness, unlike
the data-platform config renderer's fresh UUID). -/
theorem renderers_deterministic (docker_image account_id region store_bucket
    site_bucket data_bucket : String) :
    generate_ecr_bash_script_document docker_image account_id region
      = generate_ecr_bash_script_document docker_image account_id region
    ∧ document_buckets store_bucket site_bucket data_bucket
      = document_buckets store_bucket site_bucket data_bucket
    ∧ document_lambda store_bucket site_bucket data_bucket account_id region
        docker_image
      = document_lambda store_bucket site_bucket data_bucket account_id region
          docker_image
    ∧ provider_tf_document region = provider_tf_document region :=
  ⟨rfl, rfl, rfl, rfl⟩
